import Mathlib

/-!
Shallow embedding of the HPMA115 particulate-sensor driver
(src/HPMA115.py) and verification of its specification.

Bytes are modelled as natural numbers.  The serial transport is a record
of the pending input bytes together with a chronological trace of the
side-effecting actions the driver performs on it (packet writes, the
0.2 s sleep, input-buffer resets).  Python exceptions become an explicit
error type carried in an Except value, and the unbounded autosample loop
takes an explicit fuel argument (running out of fuel is an artificial
outcome that the real loop, which can run forever, never produces).
-/

namespace HPMA115

/-- Exceptions the Python driver can raise.  The first three mirror the
exception classes defined at the top of the source file; the remaining
constructors model builtin Python exceptions reachable from the driver
code (IndexError from indexing a short read, struct.error from
struct.unpack on a wrong-sized buffer, TypeError from passing None to
struct.unpack or int.from_bytes, ValueError from the coefficient range
check).  OutOfFuel is the artificial result of exhausting the fuel of the
modelled infinite loop. -/
inductive Err where
  | CommandFailure
  | ChecksumFailure
  | SerialDataMalformed
  | IndexError
  | StructError
  | TypeError
  | ValueError
  | OutOfFuel
  deriving DecidableEq

instance {ε α : Type} [DecidableEq ε] [DecidableEq α] :
    DecidableEq (Except ε α) := fun a b =>
  match a, b with
  | Except.error e1, Except.error e2 =>
    if h : e1 = e2 then Decidable.isTrue (by rw [h])
    else Decidable.isFalse (by intro hc; injection hc; contradiction)
  | Except.error _, Except.ok _ => Decidable.isFalse (by intro hc; injection hc)
  | Except.ok _, Except.error _ => Decidable.isFalse (by intro hc; injection hc)
  | Except.ok x, Except.ok y =>
    if h : x = y then Decidable.isTrue (by rw [h])
    else Decidable.isFalse (by intro hc; injection hc; contradiction)

/-- The PacketState enum from the source. -/
inductive PacketState where
  | DATA
  | POSACK
  | NEGACK
  deriving DecidableEq

/-- The Response class from the source: a packet state plus an optional
payload. -/
structure Response where
  state : PacketState
  data : Option (List Nat)
  deriving DecidableEq

/-- Side-effecting actions performed on the serial port, recorded in
chronological order: a write of a byte sequence, the time.sleep(0.2)
call, and a reset_input_buffer call. -/
inductive Event where
  | write (packet : List Nat)
  | sleep200
  | resetInput
  deriving DecidableEq

/-- The serial transport: the bytes waiting to be read and the trace of
actions performed so far. -/
structure SerialState where
  input : List Nat
  events : List Event
  deriving DecidableEq

/-- Model of ser.read(n): returns up to n bytes; fewer when the input is
exhausted, exactly as pyserial behaves when the timeout elapses. -/
def SerialState.read (s : SerialState) (n : Nat) : List Nat × SerialState :=
  (s.input.take n, ⟨s.input.drop n, s.events⟩)

/-- Model of ser.reset_input_buffer(): discards all pending input. -/
def SerialState.reset (s : SerialState) : SerialState :=
  ⟨[], s.events ++ [Event.resetInput]⟩

/-- Model of ser.write(packet). -/
def SerialState.write (s : SerialState) (packet : List Nat) : SerialState :=
  ⟨s.input, s.events ++ [Event.write packet]⟩

/-- Model of time.sleep(0.2). -/
def SerialState.sleep (s : SerialState) : SerialState :=
  ⟨s.input, s.events ++ [Event.sleep200]⟩

/-- The function _checksum from the source: (65536 - sum(packet)) % 256
with Python integer semantics: the subtraction may go negative and % is
the mathematical modulus, hence the computation is done in Int. -/
def _checksum (packet : List Nat) : Nat :=
  (((65536 : Int) - (packet.sum : Int)) % 256).toNat

/-- int.from_bytes(b, "big"): big-endian value, 0 on the empty string. -/
def int_from_bytes_be (l : List Nat) : Nat :=
  l.foldl (fun acc b => acc * 256 + b) 0

/-- The byte sequence built by _send: header 0x68, then the length byte
(len(data) + 1 when a payload is present, the literal 0x01 otherwise),
then the command byte, then the payload bytes, then the checksum of all
preceding bytes. -/
def sendPacket (command : Nat) (data : Option (List Nat)) : List Nat :=
  let packet :=
    match data with
    | some d => 0x68 :: (d.length + 1) :: command :: d
    | none => [0x68, 0x01, command]
  packet ++ [_checksum packet]

/-- _send: builds the command packet and writes it to the serial port. -/
def _send (s : SerialState) (command : Nat) (data : Option (List Nat)) :
    SerialState :=
  s.write (sendPacket command data)

/-- The body of _recv after the two-byte header read.  Mirrors the Python
branch structure, including its failure modes on short reads: an empty
header makes the subscript header[0] raise IndexError; a one-byte header
raises IndexError either inside the 0x40 branch (evaluating header[1] as
the read length) or while evaluating one of the two-byte comparisons,
except when the single byte matches none of the four first bytes, in
which case the else branch resets the input buffer and raises
SerialDataMalformed. -/
def recvHeader (header : List Nat) (s : SerialState) :
    Except Err Response × SerialState :=
  match header with
  | [] => (Except.error Err.IndexError, s)
  | [b0] =>
    if b0 = 0x40 ∨ b0 = 0x42 ∨ b0 = 0xA5 ∨ b0 = 0x96 then
      (Except.error Err.IndexError, s)
    else
      (Except.error Err.SerialDataMalformed, s.reset)
  | b0 :: b1 :: _ =>
    if b0 = 0x40 then
      let r1 := s.read b1
      let r2 := r1.2.read 1
      let cs := int_from_bytes_be r2.1
      if cs ≠ _checksum ([b0, b1] ++ r1.1) then
        (Except.error Err.ChecksumFailure, r2.2)
      else
        (Except.ok ⟨PacketState.DATA, some (r1.1.drop 1)⟩, r2.2)
    else if b0 = 0x42 ∧ b1 = 0x4D then
      let r1 := s.read 28
      let r2 := r1.2.read 2
      match r2.1 with
      | [c0, c1] =>
        if c0 * 256 + c1 ≠ ([b0, b1] ++ r1.1).sum % 65536 then
          (Except.error Err.ChecksumFailure, r2.2)
        else
          (Except.ok ⟨PacketState.DATA, some (r1.1.drop 2)⟩, r2.2)
      | _ => (Except.error Err.StructError, r2.2)
    else if b0 = 0xA5 ∧ b1 = 0xA5 then
      (Except.ok ⟨PacketState.POSACK, none⟩, s)
    else if b0 = 0x96 ∧ b1 = 0x96 then
      (Except.ok ⟨PacketState.NEGACK, none⟩, s)
    else
      (Except.error Err.SerialDataMalformed, s.reset)

/-- _recv: read a two-byte header and dispatch on it. -/
def _recv (s : SerialState) : Except Err Response × SerialState :=
  let r := s.read 2
  recvHeader r.1 r.2

/-- The big-endian 16-bit words of a byte list: the value part of
struct.unpack with a big-endian all-H format string. -/
def unpackBEWords : List Nat → List Nat
  | b0 :: b1 :: rest => (b0 * 256 + b1) :: unpackBEWords rest
  | _ => []

/-- struct.unpack with n big-endian u16 fields: requires exactly 2*n
bytes, otherwise struct.error is raised. -/
def unpack_words (n : Nat) (b : List Nat) : Except Err (List Nat) :=
  if b.length = 2 * n then Except.ok (unpackBEWords b) else
    Except.error Err.StructError

/-- The SampleC0 class: PM1.0, PM2.5, PM4.0, PM10 taken from the first
four fields of the unpacked data. -/
structure SampleC0 where
  PM1_0 : Nat
  PM2_5 : Nat
  PM4_0 : Nat
  PM10 : Nat
  deriving DecidableEq

/-- SampleC0.__init__: fields 0..3 of the data tuple. -/
def SampleC0.init (data : List Nat) : SampleC0 :=
  ⟨data.getD 0 0, data.getD 1 0, data.getD 2 0, data.getD 3 0⟩

/-- The SampleS0 class.  Its __init__ sets the attributes only when the
data tuple has exactly 2 or exactly 13 fields; for any other arity the
attributes are never assigned, which is modelled by Option fields being
none. -/
structure SampleS0 where
  PM2_5 : Option Nat
  PM10 : Option Nat
  deriving DecidableEq

/-- SampleS0.__init__: a 2-field tuple maps positions 0 and 1 to PM2.5
and PM10; a 13-field tuple maps positions 1 and 2; any other arity
leaves both attributes unset. -/
def SampleS0.init (data : List Nat) : SampleS0 :=
  if data.length = 2 then
    ⟨some (data.getD 0 0), some (data.getD 1 0)⟩
  else if data.length = 13 then
    ⟨some (data.getD 1 0), some (data.getD 2 0)⟩
  else
    ⟨none, none⟩

/-- stop_measurement: send command 0x02, fail with CommandFailure on a
NegativeAck. -/
def stop_measurement (s : SerialState) : Except Err Unit × SerialState :=
  let s1 := _send s 0x02 none
  match _recv s1 with
  | (Except.error e, s2) => (Except.error e, s2)
  | (Except.ok rsp, s2) =>
    if rsp.state = PacketState.NEGACK then
      (Except.error Err.CommandFailure, s2)
    else
      (Except.ok (), s2)

/-- start_measurement: send command 0x01, fail with CommandFailure on a
NegativeAck. -/
def start_measurement (s : SerialState) : Except Err Unit × SerialState :=
  let s1 := _send s 0x01 none
  match _recv s1 with
  | (Except.error e, s2) => (Except.error e, s2)
  | (Except.ok rsp, s2) =>
    if rsp.state = PacketState.NEGACK then
      (Except.error Err.CommandFailure, s2)
    else
      (Except.ok (), s2)

/-- sample: send command 0x04, receive a response, fail on NegativeAck,
then build the variant's sample class from struct.unpack(">HHHHHH",
rsp.data) — six big-endian u16 fields, requiring a 12-byte payload.
SampleCls is the class attribute bound by the concrete variant
(SampleC0.init for HPMA115C0, SampleS0.init for HPMA115S0). -/
def sample {α : Type} (SampleCls : List Nat → α) (s : SerialState) :
    Except Err α × SerialState :=
  let s1 := _send s 0x04 none
  match _recv s1 with
  | (Except.error e, s2) => (Except.error e, s2)
  | (Except.ok rsp, s2) =>
    if rsp.state = PacketState.NEGACK then
      (Except.error Err.CommandFailure, s2)
    else
      match rsp.data with
      | none => (Except.error Err.TypeError, s2)
      | some d =>
        match unpack_words 6 d with
        | Except.error e => (Except.error e, s2)
        | Except.ok fields => (Except.ok (SampleCls fields), s2)

/-- set_cust_adj_coeff: raise ValueError for a coefficient outside
[30, 200] before anything is written, otherwise send command 0x08 with
the coefficient as a one-byte payload and fail on NegativeAck.  The
coefficient is an Int to match the unbounded Python int argument. -/
def set_cust_adj_coeff (s : SerialState) (coeff : Int) :
    Except Err Unit × SerialState :=
  if coeff < 30 ∨ coeff > 200 then
    (Except.error Err.ValueError, s)
  else
    let s1 := _send s 0x08 (some [coeff.toNat])
    match _recv s1 with
    | (Except.error e, s2) => (Except.error e, s2)
    | (Except.ok rsp, s2) =>
      if rsp.state = PacketState.NEGACK then
        (Except.error Err.CommandFailure, s2)
      else
        (Except.ok (), s2)

/-- read_cust_adj_coeff: send command 0x10, fail on NegativeAck, then
interpret the payload big-endian (int.from_bytes of None would be a
TypeError). -/
def read_cust_adj_coeff (s : SerialState) : Except Err Nat × SerialState :=
  let s1 := _send s 0x10 none
  match _recv s1 with
  | (Except.error e, s2) => (Except.error e, s2)
  | (Except.ok rsp, s2) =>
    if rsp.state = PacketState.NEGACK then
      (Except.error Err.CommandFailure, s2)
    else
      match rsp.data with
      | none => (Except.error Err.TypeError, s2)
      | some d => (Except.ok (int_from_bytes_be d), s2)

/-- The while True loop of autosample, with explicit fuel.  Each
iteration receives a response; a NegativeAck raises CommandFailure; a
receive error propagates; otherwise the sample class is built from
struct.unpack(">HHHHHHHHHHHHH", rsp.data) — thirteen big-endian u16
fields, requiring a 26-byte payload — and handed to the callback.  A
true return continues the loop; a false return sends command 0x20,
sleeps 0.2 s, resets the input buffer and breaks. -/
def autosampleLoop {α : Type} (SampleCls : List Nat → α)
    (callback : α → Bool) (fuel : Nat) (s : SerialState) :
    Except Err Unit × SerialState :=
  match fuel with
  | 0 => (Except.error Err.OutOfFuel, s)
  | fuel + 1 =>
    match _recv s with
    | (Except.error e, s1) => (Except.error e, s1)
    | (Except.ok rsp, s1) =>
      if rsp.state = PacketState.NEGACK then
        (Except.error Err.CommandFailure, s1)
      else
        match rsp.data with
        | none => (Except.error Err.TypeError, s1)
        | some d =>
          match unpack_words 13 d with
          | Except.error e => (Except.error e, s1)
          | Except.ok fields =>
            if callback (SampleCls fields) then
              autosampleLoop SampleCls callback fuel s1
            else
              (Except.ok (), ((s1.write (sendPacket 0x20 none)).sleep).reset)

/-- autosample: send command 0x40, fail with CommandFailure if the first
response is a NegativeAck, then enter the streaming loop. -/
def autosample {α : Type} (SampleCls : List Nat → α)
    (callback : α → Bool) (fuel : Nat) (s : SerialState) :
    Except Err Unit × SerialState :=
  let s1 := _send s 0x40 none
  match _recv s1 with
  | (Except.error e, s2) => (Except.error e, s2)
  | (Except.ok rsp, s2) =>
    if rsp.state = PacketState.NEGACK then
      (Except.error Err.CommandFailure, s2)
    else
      autosampleLoop SampleCls callback fuel s2

end HPMA115

namespace HPMA115

theorem read_one (b : Nat) (t : List Nat) (ev : List Event) :
    SerialState.read ⟨b :: t, ev⟩ 1 = ([b], ⟨t, ev⟩) := rfl

theorem read_two (b0 b1 : Nat) (t : List Nat) (ev : List Event) :
    SerialState.read ⟨b0 :: b1 :: t, ev⟩ 2 = ([b0, b1], ⟨t, ev⟩) := rfl

theorem read_exact (p t : List Nat) (ev : List Event) :
    SerialState.read ⟨p ++ t, ev⟩ p.length = (p, ⟨t, ev⟩) := by
  simp [SerialState.read, List.take_left, List.drop_left]

theorem recv_cons_cons (b0 b1 : Nat) (t : List Nat) (ev : List Event) :
    _recv ⟨b0 :: b1 :: t, ev⟩ = recvHeader [b0, b1] ⟨t, ev⟩ := rfl

theorem int_from_bytes_be_one (b : Nat) : int_from_bytes_be [b] = b := by
  simp [int_from_bytes_be]

/-- C6: for every two-byte header matching none of the known patterns,
_recv resets the input buffer exactly once (the event trace grows by
exactly the single resetInput action and the pending input is discarded)
and raises SerialDataMalformed with no retry: the call returns the error
immediately. -/
theorem recv_malformed_spec (b0 b1 : Nat) (rest : List Nat) (ev : List Event)
    (h40 : b0 ≠ 0x40) (h42 : ¬(b0 = 0x42 ∧ b1 = 0x4D))
    (hA5 : ¬(b0 = 0xA5 ∧ b1 = 0xA5)) (h96 : ¬(b0 = 0x96 ∧ b1 = 0x96)) :
    _recv ⟨b0 :: b1 :: rest, ev⟩ =
      (Except.error Err.SerialDataMalformed, ⟨[], ev ++ [Event.resetInput]⟩) := by
  rw [recv_cons_cons]
  simp only [recvHeader]
  rw [if_neg h40, if_neg h42, if_neg hA5, if_neg h96]
  rfl

theorem recv_malformed_spec_witness :
    (0 : Nat) ≠ 0x40 ∧
    _recv ⟨[0, 0, 1, 2], []⟩ =
      (Except.error Err.SerialDataMalformed, ⟨[], [Event.resetInput]⟩) :=
  ⟨by decide,
    recv_malformed_spec 0 0 [1, 2] [] (by decide) (by decide) (by decide)
      (by decide)⟩

/-- C7: set_cust_adj_coeff rejects any coefficient outside [30, 200] with
ValueError, leaving the transport untouched (no bytes written), while any
coefficient in [30, 200] passes validation, writes exactly the command
0x08 packet carrying the coefficient as its one-byte payload, and
succeeds when the device answers with a PositiveAck. -/
theorem set_cust_adj_coeff_spec :
    (∀ (coeff : Int) (s : SerialState), coeff < 30 ∨ coeff > 200 →
        set_cust_adj_coeff s coeff = (Except.error Err.ValueError, s)) ∧
    (∀ (coeff : Int) (rest : List Nat) (ev : List Event),
        30 ≤ coeff → coeff ≤ 200 →
        set_cust_adj_coeff ⟨0xA5 :: 0xA5 :: rest, ev⟩ coeff =
          (Except.ok (),
            ⟨rest, ev ++ [Event.write (sendPacket 0x08 (some [coeff.toNat]))]⟩)) := by
  constructor
  · intro coeff s h
    simp only [set_cust_adj_coeff]
    rw [if_pos h]
  · intro coeff rest ev h1 h2
    have hc : ¬(coeff < 30 ∨ coeff > 200) := by omega
    simp only [set_cust_adj_coeff]
    rw [if_neg hc]
    rfl

theorem set_cust_adj_coeff_spec_witness :
    set_cust_adj_coeff ⟨[], []⟩ 29 = (Except.error Err.ValueError, ⟨[], []⟩) ∧
    set_cust_adj_coeff ⟨[], []⟩ 201 = (Except.error Err.ValueError, ⟨[], []⟩) ∧
    set_cust_adj_coeff ⟨[0xA5, 0xA5], []⟩ 30 =
      (Except.ok (), ⟨[], [Event.write (sendPacket 0x08 (some [30]))]⟩) ∧
    set_cust_adj_coeff ⟨[0xA5, 0xA5], []⟩ 200 =
      (Except.ok (), ⟨[], [Event.write (sendPacket 0x08 (some [200]))]⟩) :=
  ⟨set_cust_adj_coeff_spec.1 29 ⟨[], []⟩ (by decide),
    set_cust_adj_coeff_spec.1 201 ⟨[], []⟩ (by decide),
    set_cust_adj_coeff_spec.2 30 [] [] (by decide) (by decide),
    set_cust_adj_coeff_spec.2 200 [] [] (by decide) (by decide)⟩

/-- C8: StandardSample decoding is determined by payload arity: a 2-field
tuple maps field 0 to PM2.5 and field 1 to PM10, and a 13-field tuple
whose fields at positions 1 and 2 are the same two values yields the
same sample, every other position being discarded. -/
theorem sampleS0_dual_mapping (a b x : Nat) (rest : List Nat)
    (hr : rest.length = 10) :
    SampleS0.init [a, b] = ⟨some a, some b⟩ ∧
    SampleS0.init (x :: a :: b :: rest) = ⟨some a, some b⟩ := by
  constructor
  · rfl
  · simp [SampleS0.init, hr]

theorem sampleS0_dual_mapping_witness :
    SampleS0.init [55, 77] = ⟨some 55, some 77⟩ ∧
    SampleS0.init [0, 55, 77, 3, 4, 5, 6, 7, 8, 9, 10, 11, 12] =
      ⟨some 55, some 77⟩ :=
  sampleS0_dual_mapping 55 77 0 [3, 4, 5, 6, 7, 8, 9, 10, 11, 12] (by decide)

/-- C10: the code surfaces no distinct timeout error.  When the transport
read returns fewer bytes than requested (pyserial's behaviour when the
timeout elapses), _recv fails with IndexError (empty or one-byte header)
or misreads the missing checksum byte as the value 0 and fails with
ChecksumFailure — never with a dedicated timeout error kind, which does
not exist in the code. -/
theorem recv_short_read_no_timeout :
    _recv ⟨[], []⟩ = (Except.error Err.IndexError, ⟨[], []⟩) ∧
    _recv ⟨[0x42], []⟩ = (Except.error Err.IndexError, ⟨[], []⟩) ∧
    _recv ⟨[0x40, 3, 1, 2], []⟩ =
      (Except.error Err.ChecksumFailure, ⟨[], []⟩) :=
  ⟨by decide, by decide, by decide⟩

/-- C4: the input is a well-formed command-response frame whose payload,
after the sub-command echo byte is dropped, is the 12 bytes of six
big-endian u16 fields 1..6 — exactly what a successful single-sample
exchange yields.  sample for the Standard variant then constructs
SampleS0 from the six-field tuple, which matches neither the 2-field nor
the 13-field branch of SampleS0.__init__, so the returned sample has
neither PM2_5 nor PM10 populated. -/
theorem sample_S0_fields_unset :
    sample SampleS0.init
        ⟨[0x40, 13, 0x04, 0, 1, 0, 2, 0, 3, 0, 4, 0, 5, 0, 6, 154], []⟩ =
      (Except.ok ⟨none, none⟩,
        ⟨[], [Event.write [0x68, 0x01, 0x04, 147]]⟩) := by decide

/-- C1 counterexample: the consumer always returns true, the device
positive-acks the enable command and then sends a NegativeAck inside the
loop.  The claim says the loop then sends the disable command 0x20,
waits, discards the buffer and returns normally; instead the code raises
CommandFailure and the only packet ever written is the enable command
0x40 — the disable packet [0x68, 0x01, 0x20, 0x77] is never sent and no
sleep or buffer discard happens. -/
theorem autosample_negack_no_disable_cex :
    autosample SampleS0.init (fun _ => true) 5 ⟨[0xA5, 0xA5, 0x96, 0x96], []⟩ =
      (Except.error Err.CommandFailure,
        ⟨[], [Event.write [0x68, 0x01, 0x40, 0x57]]⟩) ∧
    Event.write [0x68, 0x01, 0x20, 0x77] ∉
      [Event.write [0x68, 0x01, 0x40, 0x57]] ∧
    Event.sleep200 ∉ [Event.write [0x68, 0x01, 0x40, 0x57]] :=
  ⟨by decide, by decide, by decide⟩

/-- C5 counterexample: one valid streaming frame is consumed (consumer
returns true) and then a NegativeAck arrives.  The claim counts
NegativeAck-driven stops among the stops that run the disable sequence;
instead the loop raises CommandFailure with an empty event trace: no
disable command, no sleep, no buffer discard. -/
theorem autosampleLoop_negack_no_disable_cex :
    autosampleLoop SampleS0.init (fun _ => true) 5
        ⟨(0x42 :: 0x4D :: (List.replicate 28 0 ++ 0 :: 143 :: [])) ++
          [0x96, 0x96], []⟩ =
      (Except.error Err.CommandFailure, ⟨[], []⟩) := by decide

/-- C9 counterexample: a fully framed streaming frame that validates
(28-byte body of zeros, checksum 0x008F), with its first header byte
flipped from 0x42 to 0x43, makes _recv raise SerialDataMalformed — not
ChecksumMismatch as the claim requires for every single-byte flip. -/
theorem singleByteFlip_not_checksum_cex :
    _recv ⟨0x42 :: 0x4D :: (List.replicate 28 0 ++ 0 :: 143 :: []), []⟩ =
      (Except.ok ⟨PacketState.DATA, some (List.replicate 26 0)⟩, ⟨[], []⟩) ∧
    _recv ⟨0x43 :: 0x4D :: (List.replicate 28 0 ++ 0 :: 143 :: []), []⟩ =
      (Except.error Err.SerialDataMalformed, ⟨[], [Event.resetInput]⟩) :=
  ⟨by decide, by decide⟩

end HPMA115

namespace HPMA115

theorem read_len (n : Nat) (p t : List Nat) (ev : List Event)
    (h : p.length = n) :
    SerialState.read ⟨p ++ t, ev⟩ n = (p, ⟨t, ev⟩) := by
  subst h
  exact read_exact p t ev

theorem recv_cmd_frame (ll ks : Nat) (payload rest : List Nat)
    (ev : List Event) (hl : payload.length = ll) :
    _recv ⟨0x40 :: ll :: (payload ++ ks :: rest), ev⟩ =
      if ks = _checksum (0x40 :: ll :: payload) then
        (Except.ok ⟨PacketState.DATA, some (payload.drop 1)⟩, ⟨rest, ev⟩)
      else
        (Except.error Err.ChecksumFailure, ⟨rest, ev⟩) := by
  rw [recv_cons_cons]
  simp only [recvHeader]
  rw [read_len ll payload (ks :: rest) ev hl]
  simp only [read_one, int_from_bytes_be_one]
  norm_num

theorem recv_stream_frame (body : List Nat) (c0 c1 : Nat) (rest : List Nat)
    (ev : List Event) (hb : body.length = 28) :
    _recv ⟨0x42 :: 0x4D :: (body ++ c0 :: c1 :: rest), ev⟩ =
      if c0 * 256 + c1 = (0x42 + 0x4D + body.sum) % 65536 then
        (Except.ok ⟨PacketState.DATA, some (body.drop 2)⟩, ⟨rest, ev⟩)
      else
        (Except.error Err.ChecksumFailure, ⟨rest, ev⟩) := by
  rw [recv_cons_cons]
  simp only [recvHeader]
  rw [read_len 28 body (c0 :: c1 :: rest) ev hb]
  simp only [read_two]
  norm_num
  by_cases h : c0 * 256 + c1 = (0x42 + 0x4D + body.sum) % 65536 <;>
    simp [h] <;> omega

end HPMA115

namespace HPMA115

/-- C2: for every command byte and every payload (including the
no-payload case) whose encoded frame fits the one-byte length field,
_send writes the byte sequence header 0x68, length, command, payload,
checksum, where the length byte equals the payload length plus one (so 1
when there is no payload) and the checksum equals
(65536 - sum of all preceding frame bytes) mod 256. -/
theorem sendPacket_frame_invariant (command : Nat) (payload : Option (List Nat))
    (hcmd : command < 256) (hlen : (payload.getD []).length + 1 ≤ 255) :
    sendPacket command payload =
      0x68 :: ((payload.getD []).length + 1) :: command :: (payload.getD []) ++
        [(((65536 : Int) -
            (0x68 + (((payload.getD []).length : Int) + 1) + (command : Int) +
              ((payload.getD []).sum : Int))) % 256).toNat] := by
  cases payload with
  | none =>
    simp only [Option.getD_none, List.length_nil, List.sum_nil, sendPacket,
      _checksum, List.sum_cons]
    norm_num
    omega
  | some d =>
    simp only [Option.getD_some, sendPacket, _checksum, List.sum_cons]
    norm_num
    omega

theorem sendPacket_frame_invariant_witness :
    (0x08 : Nat) < 256 ∧
    sendPacket 0x08 (some [0x55]) =
      0x68 :: (((some [0x55] : Option (List Nat)).getD []).length + 1) :: 0x08 ::
          (((some [0x55] : Option (List Nat)).getD [])) ++
        [(((65536 : Int) -
            (0x68 + ((((some [0x55] : Option (List Nat)).getD []).length : Int) + 1) +
              ((0x08 : Nat) : Int) +
              ((((some [0x55] : Option (List Nat)).getD []).sum : Nat) : Int))) % 256).toNat] :=
  ⟨by decide,
    sendPacket_frame_invariant 0x08 (some [0x55]) (by decide) (by decide)⟩

/-- C3: on the streaming header 0x42 0x4D _recv reads a fixed 28-byte
body plus a two-byte big-endian checksum, validates that checksum as the
plain sum of header and body modulo 65536, raises ChecksumFailure on
disagreement, and on success returns a DATA response whose payload is
the body with its first two bytes (the frame-length echo) dropped. -/
theorem recv_streaming_spec (body : List Nat) (c0 c1 : Nat) (rest : List Nat)
    (ev : List Event) (hb : body.length = 28) :
    _recv ⟨0x42 :: 0x4D :: (body ++ c0 :: c1 :: rest), ev⟩ =
      if c0 * 256 + c1 = (0x42 + 0x4D + body.sum) % 65536 then
        (Except.ok ⟨PacketState.DATA, some (body.drop 2)⟩, ⟨rest, ev⟩)
      else
        (Except.error Err.ChecksumFailure, ⟨rest, ev⟩) :=
  recv_stream_frame body c0 c1 rest ev hb

theorem recv_streaming_spec_witness :
    (List.replicate 27 0 ++ [1]).length = 28 ∧
    _recv ⟨0x42 :: 0x4D :: ((List.replicate 27 0 ++ [1]) ++ 0 :: 144 :: []), []⟩ =
      (Except.ok ⟨PacketState.DATA,
          some ((List.replicate 27 0 ++ [1]).drop 2)⟩, ⟨[], []⟩) := by
  refine ⟨by decide, ?_⟩
  rw [recv_streaming_spec (List.replicate 27 0 ++ [1]) 0 144 [] [] (by decide)]
  decide

theorem _checksum_lt (l : List Nat) : _checksum l < 256 := by
  unfold _checksum
  omega

theorem _checksum_ne_of_sum_ne (l1 l2 : List Nat)
    (h : l1.sum % 256 ≠ l2.sum % 256) : _checksum l1 ≠ _checksum l2 := by
  unfold _checksum
  intro hc
  apply h
  omega

theorem sum_flip_ne (x y : Nat) (u w : List Nat) (b b' : Nat)
    (hb : b < 256) (hb' : b' < 256) (hne : b ≠ b') :
    (x :: y :: (u ++ b :: w)).sum % 256 ≠
      (x :: y :: (u ++ b' :: w)).sum % 256 := by
  simp only [List.sum_cons, List.sum_append]
  omega

end HPMA115

namespace HPMA115

/-- C9 amended: flipping a payload byte or the trailing checksum byte of
a validating command-response frame, or a body byte or either checksum
byte of a validating streaming frame, always causes ChecksumFailure.
(Flipping header or length bytes may instead yield SerialDataMalformed
or a different parse, per the counterexample.) -/
theorem singleByteFlip_checksum_spec :
    (∀ (u w rest : List Nat) (b b' ks : Nat) (ev : List Event),
        b < 256 → b' < 256 → b ≠ b' →
        ks = _checksum (0x40 :: (u ++ b :: w).length :: (u ++ b :: w)) →
        _recv ⟨0x40 :: (u ++ b :: w).length :: ((u ++ b' :: w) ++ ks :: rest), ev⟩ =
          (Except.error Err.ChecksumFailure, ⟨rest, ev⟩)) ∧
    (∀ (payload rest : List Nat) (ks ks' : Nat) (ev : List Event),
        ks = _checksum (0x40 :: payload.length :: payload) → ks' ≠ ks →
        _recv ⟨0x40 :: payload.length :: (payload ++ ks' :: rest), ev⟩ =
          (Except.error Err.ChecksumFailure, ⟨rest, ev⟩)) ∧
    (∀ (u w rest : List Nat) (b b' c0 c1 : Nat) (ev : List Event),
        (u ++ b :: w).length = 28 → b < 256 → b' < 256 → b ≠ b' →
        c0 * 256 + c1 = (0x42 + 0x4D + (u ++ b :: w).sum) % 65536 →
        _recv ⟨0x42 :: 0x4D :: ((u ++ b' :: w) ++ c0 :: c1 :: rest), ev⟩ =
          (Except.error Err.ChecksumFailure, ⟨rest, ev⟩)) ∧
    (∀ (body rest : List Nat) (c0 c1 c0' c1' : Nat) (ev : List Event),
        body.length = 28 →
        c0 * 256 + c1 = (0x42 + 0x4D + body.sum) % 65536 →
        ((c0' = c0 ∧ c1' ≠ c1) ∨ (c0' ≠ c0 ∧ c1' = c1)) →
        _recv ⟨0x42 :: 0x4D :: (body ++ c0' :: c1' :: rest), ev⟩ =
          (Except.error Err.ChecksumFailure, ⟨rest, ev⟩)) := by
  refine ⟨?_, ?_, ?_, ?_⟩
  · intro u w rest b b' ks ev hb hb' hne hks
    have hl : (u ++ b' :: w).length = (u ++ b :: w).length := by simp
    rw [recv_cmd_frame ((u ++ b :: w).length) ks (u ++ b' :: w) rest ev hl]
    have hcs : _checksum (0x40 :: (u ++ b :: w).length :: (u ++ b :: w)) ≠
        _checksum (0x40 :: (u ++ b :: w).length :: (u ++ b' :: w)) :=
      _checksum_ne_of_sum_ne _ _
        (sum_flip_ne 0x40 ((u ++ b :: w).length) u w b b' hb hb' hne)
    rw [if_neg (by rw [hks]; exact hcs)]
  · intro payload rest ks ks' ev hks hne
    rw [recv_cmd_frame payload.length ks' payload rest ev rfl]
    rw [if_neg (by rw [← hks] at *; exact hne)]
  · intro u w rest b b' c0 c1 ev hlen hb hb' hne hv
    have hl' : (u ++ b' :: w).length = 28 := by
      simp only [List.length_append, List.length_cons] at hlen ⊢
      omega
    rw [recv_stream_frame (u ++ b' :: w) c0 c1 rest ev hl']
    have hcond : ¬(c0 * 256 + c1 = (0x42 + 0x4D + (u ++ b' :: w).sum) % 65536) := by
      simp only [List.sum_append, List.sum_cons] at hv ⊢
      omega
    rw [if_neg hcond]
  · intro body rest c0 c1 c0' c1' ev hlen hv hflip
    rw [recv_stream_frame body c0' c1' rest ev hlen]
    have hcond : ¬(c0' * 256 + c1' = (0x42 + 0x4D + body.sum) % 65536) := by
      rw [← hv]
      rcases hflip with ⟨h0, h1⟩ | ⟨h0, h1⟩ <;> omega
    rw [if_neg hcond]

theorem singleByteFlip_checksum_spec_witness :
    (_recv ⟨[0x40, 1, 1, 191], []⟩ =
      (Except.error Err.ChecksumFailure, ⟨[], []⟩)) ∧
    (_recv ⟨[0x40, 1, 0, 190], []⟩ =
      (Except.error Err.ChecksumFailure, ⟨[], []⟩)) ∧
    (_recv ⟨0x42 :: 0x4D :: ((1 :: List.replicate 27 0) ++ 0 :: 143 :: []), []⟩ =
      (Except.error Err.ChecksumFailure, ⟨[], []⟩)) ∧
    (_recv ⟨0x42 :: 0x4D :: (List.replicate 28 0 ++ 0 :: 142 :: []), []⟩ =
      (Except.error Err.ChecksumFailure, ⟨[], []⟩)) := by
  refine ⟨?_, ?_, ?_, ?_⟩
  · exact singleByteFlip_checksum_spec.1 [] [] [] 0 1 191 []
      (by decide) (by decide) (by decide) (by decide)
  · exact singleByteFlip_checksum_spec.2.1 [0] [] 191 190 [] (by decide) (by decide)
  · exact singleByteFlip_checksum_spec.2.2.1 [] (List.replicate 27 0) [] 0 1 0 143 []
      (by decide) (by decide) (by decide) (by decide) (by decide)
  · exact singleByteFlip_checksum_spec.2.2.2 (List.replicate 28 0) [] 0 143 0 142 []
      (by decide) (by decide) (Or.inl ⟨rfl, by decide⟩)

end HPMA115

namespace HPMA115

theorem sendPacket_disable : sendPacket 0x20 none = [0x68, 0x01, 0x20, 0x77] := by
  decide

theorem recv_cases (s : SerialState) :
    (_recv s).2.events = s.events ∨
      ((_recv s).2.events = s.events ++ [Event.resetInput] ∧
        (_recv s).1 = Except.error Err.SerialDataMalformed) := by
  rcases s with ⟨input, ev⟩
  rcases input with _ | ⟨b0, input⟩
  · exact Or.inl rfl
  rcases input with _ | ⟨b1, t⟩
  · rw [show _recv ⟨[b0], ev⟩ = recvHeader [b0] ⟨[], ev⟩ from rfl]
    simp only [recvHeader]
    split
    · exact Or.inl rfl
    · exact Or.inr ⟨rfl, rfl⟩
  · rw [recv_cons_cons]
    simp only [recvHeader]
    split <;> (try split) <;> (try split) <;> (try split) <;>
      first
        | exact Or.inl rfl
        | exact Or.inr ⟨rfl, rfl⟩

theorem recv_ok_events (s : SerialState) (r : Response) (s1 : SerialState)
    (h : _recv s = (Except.ok r, s1)) : s1.events = s.events := by
  rcases recv_cases s with hc | ⟨hc, he⟩
  · rw [h] at hc
    simpa using hc
  · rw [h] at he
    simp at he

theorem autosampleLoop_recv_error {α : Type} (SampleCls : List Nat → α)
    (cb : α → Bool) (fuel : Nat) (s s1 : SerialState) (e : Err)
    (h : _recv s = (Except.error e, s1)) :
    autosampleLoop SampleCls cb (fuel + 1) s = (Except.error e, s1) := by
  simp only [autosampleLoop, h]

theorem autosampleLoop_negack {α : Type} (SampleCls : List Nat → α)
    (cb : α → Bool) (fuel : Nat) (s s1 : SerialState) (rsp : Response)
    (h : _recv s = (Except.ok rsp, s1)) (hneg : rsp.state = PacketState.NEGACK) :
    autosampleLoop SampleCls cb (fuel + 1) s =
      (Except.error Err.CommandFailure, s1) := by
  simp only [autosampleLoop, h]
  rw [if_pos hneg]

theorem autosampleLoop_consumer_false {α : Type} (SampleCls : List Nat → α)
    (cb : α → Bool) (fuel : Nat) (s s1 : SerialState) (d : List Nat)
    (h : _recv s = (Except.ok ⟨PacketState.DATA, some d⟩, s1))
    (hd : d.length = 26)
    (hcb : cb (SampleCls (unpackBEWords d)) = false) :
    autosampleLoop SampleCls cb (fuel + 1) s =
      (Except.ok (),
        ⟨[], s1.events ++ [Event.write [0x68, 0x01, 0x20, 0x77],
          Event.sleep200, Event.resetInput]⟩) := by
  simp only [autosampleLoop, h]
  rw [if_neg (by simp)]
  simp only [unpack_words, hd]
  norm_num
  rw [hcb]
  simp [SerialState.write, SerialState.sleep, SerialState.reset,
    sendPacket_disable]

end HPMA115

namespace HPMA115

theorem autosampleLoop_error_no_write {α : Type} (SampleCls : List Nat → α)
    (cb : α → Bool) :
    ∀ (fuel : Nat) (s s2 : SerialState) (e : Err),
      autosampleLoop SampleCls cb fuel s = (Except.error e, s2) →
      s2.events = s.events ∨ s2.events = s.events ++ [Event.resetInput] := by
  intro fuel
  induction fuel with
  | zero =>
    intro s s2 e h
    simp only [autosampleLoop] at h
    injection h with h1 h2
    subst h2
    exact Or.inl rfl
  | succ n ih =>
    intro s s2 e h
    simp only [autosampleLoop] at h
    rcases hr : _recv s with ⟨r, s1⟩
    rw [hr] at h
    have hev := recv_cases s
    rw [hr] at hev
    dsimp only at hev
    cases r with
    | error e2 =>
      dsimp only at h
      injection h with h1 h2
      subst h2
      rcases hev with h1' | ⟨h1', _⟩
      · exact Or.inl h1'
      · exact Or.inr h1'
    | ok rsp =>
      dsimp only at h
      have hev1 : s1.events = s.events := recv_ok_events s rsp s1 hr
      by_cases hneg : rsp.state = PacketState.NEGACK
      · rw [if_pos hneg] at h
        injection h with h1 h2
        subst h2
        exact Or.inl hev1
      · rw [if_neg hneg] at h
        rcases hd : rsp.data with _ | d
        · rw [hd] at h
          dsimp only at h
          injection h with h1 h2
          subst h2
          exact Or.inl hev1
        · rw [hd] at h
          dsimp only at h
          rcases hu : unpack_words 13 d with e2 | fields
          · rw [hu] at h
            dsimp only at h
            injection h with h1 h2
            subst h2
            exact Or.inl hev1
          · rw [hu] at h
            dsimp only at h
            by_cases hcb : cb (SampleCls fields) = true
            · rw [if_pos hcb] at h
              rcases ih s1 s2 e h with h1' | h1'
              · rw [h1', hev1]
                exact Or.inl rfl
              · rw [h1', hev1]
                exact Or.inr rfl
            · rw [if_neg hcb] at h
              injection h with h1 h2
              injection h1

/-- C1 amended: after entry into the autosample loop, a consumer
returning false triggers exactly the disable sequence — the write of the
disable command packet 0x20, the 200 ms sleep, the input-buffer discard
— followed by a normal return (the Stopped outcome); a NegativeAck
received in the loop instead raises CommandFailure immediately, with no
disable command, no sleep and no buffer discard. -/
theorem autosample_stop_spec {α : Type} (SampleCls : List Nat → α)
    (cb : α → Bool) :
    (∀ (fuel : Nat) (s s1 : SerialState) (d : List Nat),
        _recv s = (Except.ok ⟨PacketState.DATA, some d⟩, s1) →
        d.length = 26 →
        cb (SampleCls (unpackBEWords d)) = false →
        autosampleLoop SampleCls cb (fuel + 1) s =
          (Except.ok (),
            ⟨[], s1.events ++ [Event.write [0x68, 0x01, 0x20, 0x77],
              Event.sleep200, Event.resetInput]⟩)) ∧
    (∀ (fuel : Nat) (s s1 : SerialState) (rsp : Response),
        _recv s = (Except.ok rsp, s1) →
        rsp.state = PacketState.NEGACK →
        autosampleLoop SampleCls cb (fuel + 1) s =
          (Except.error Err.CommandFailure, s1)) :=
  ⟨fun fuel s s1 d h hd hcb =>
      autosampleLoop_consumer_false SampleCls cb fuel s s1 d h hd hcb,
    fun fuel s s1 rsp h hneg =>
      autosampleLoop_negack SampleCls cb fuel s s1 rsp h hneg⟩

theorem autosample_stop_spec_witness :
    autosampleLoop SampleS0.init (fun _ => false) 1
        ⟨0x42 :: 0x4D :: (List.replicate 28 0 ++ 0 :: 143 :: []), []⟩ =
      (Except.ok (),
        ⟨[], [Event.write [0x68, 0x01, 0x20, 0x77], Event.sleep200,
          Event.resetInput]⟩) ∧
    autosampleLoop SampleS0.init (fun _ => false) 1 ⟨[0x96, 0x96], []⟩ =
      (Except.error Err.CommandFailure, ⟨[], []⟩) := by
  constructor
  · have h := (autosample_stop_spec SampleS0.init (fun _ => false)).1 0
        ⟨0x42 :: 0x4D :: (List.replicate 28 0 ++ 0 :: 143 :: []), []⟩ ⟨[], []⟩
        (List.replicate 26 0) (by decide) (by decide) (by decide)
    simpa using h
  · exact (autosample_stop_spec SampleS0.init (fun _ => false)).2 0
      ⟨[0x96, 0x96], []⟩ ⟨[], []⟩ ⟨PacketState.NEGACK, none⟩ (by decide) rfl

/-- C5 amended: a decode failure during the streaming loop propagates to
the caller as that same error and terminates the loop, and every error
stop (decode failure, NegativeAck-driven CommandFailure, fuel
exhaustion) leaves the event trace without any new write — at most the
single input-buffer reset of a malformed frame is appended — so the
disable command is never sent on an error stop; only a
consumer-requested stop runs the disable sequence. -/
theorem autosampleLoop_error_stop {α : Type} (SampleCls : List Nat → α)
    (cb : α → Bool) :
    (∀ (fuel : Nat) (s s1 : SerialState) (e : Err),
        _recv s = (Except.error e, s1) →
        autosampleLoop SampleCls cb (fuel + 1) s = (Except.error e, s1)) ∧
    (∀ (fuel : Nat) (s s2 : SerialState) (e : Err),
        autosampleLoop SampleCls cb fuel s = (Except.error e, s2) →
        s2.events = s.events ∨ s2.events = s.events ++ [Event.resetInput]) :=
  ⟨fun fuel s s1 e h => autosampleLoop_recv_error SampleCls cb fuel s s1 e h,
    fun fuel s s2 e h => autosampleLoop_error_no_write SampleCls cb fuel s s2 e h⟩

theorem autosampleLoop_error_stop_witness :
    autosampleLoop SampleS0.init (fun _ => true) 3 ⟨[0, 0], []⟩ =
      (Except.error Err.SerialDataMalformed, ⟨[], [Event.resetInput]⟩) ∧
    (((⟨[], [Event.resetInput]⟩ : SerialState).events =
        (⟨[0, 0], []⟩ : SerialState).events) ∨
      ((⟨[], [Event.resetInput]⟩ : SerialState).events =
        (⟨[0, 0], []⟩ : SerialState).events ++ [Event.resetInput])) := by
  have h1 : autosampleLoop SampleS0.init (fun _ => true) 3 ⟨[0, 0], []⟩ =
      (Except.error Err.SerialDataMalformed, ⟨[], [Event.resetInput]⟩) :=
    (autosampleLoop_error_stop SampleS0.init (fun _ => true)).1 2 ⟨[0, 0], []⟩
      ⟨[], [Event.resetInput]⟩ Err.SerialDataMalformed (by decide)
  exact ⟨h1, (autosampleLoop_error_stop SampleS0.init (fun _ => true)).2 3
    ⟨[0, 0], []⟩ ⟨[], [Event.resetInput]⟩ Err.SerialDataMalformed h1⟩

end HPMA115
